import Mathlib

/-!
Verification development for the wsdd daemon (WS-Discovery host/client).

The Python source is shallowly embedded: `xml.etree.ElementTree` elements
become the inductive type `Elem`; the library find/findtext operations over
prefixed tag paths become `Elem.findChild`, `selectPath` and `findtext`;
Python `None`-able strings become `Option String`; the process-wide deque of
recent message ids becomes a list (oldest first); exceptions become `Except`.
Nondeterministic inputs of the code (uuid generation, `random.randint`) are
passed as explicit parameters.
-/

namespace Wsdd

/-- Model of an `ElementTree` element: tag (with namespace prefix as written
in the source), attribute list, optional text, and child elements. -/
inductive Elem where
  | mk (tag : String) (attrs : List (String × String)) (text : Option String)
       (children : List Elem)

def Elem.tag : Elem → String
  | .mk t _ _ _ => t

def Elem.attrs : Elem → List (String × String)
  | .mk _ a _ _ => a

def Elem.text : Elem → Option String
  | .mk _ _ t _ => t

def Elem.children : Elem → List Elem
  | .mk _ _ _ c => c

/-- `element.find(tag)` for a single-step path: first child with the tag. -/
def Elem.findChild (e : Elem) (t : String) : Option Elem :=
  e.children.find? (fun c => c.tag == t)

/-- `element.get(key)`: attribute lookup. -/
def Elem.attr (e : Elem) (k : String) : Option String :=
  (e.attrs.find? (fun p => p.1 == k)).map Prod.snd

/-- Python truthiness of an `ElementTree` element: an element tests true iff
it has at least one child element (text and attributes do not count). -/
def Elem.truthy (e : Elem) : Bool :=
  !e.children.isEmpty

/-- All elements reached from `es` by the remaining path steps, in document
order; models `ElementTree` path selection `a/b/c`. -/
def selectPath (es : List Elem) : List String → List Elem
  | [] => es
  | t :: ts => selectPath (es.flatMap (fun e => e.children.filter (fun c => c.tag == t))) ts

/-- `element.find(path)` over a multi-step path. -/
def findPath (e : Elem) (p : List String) : Option Elem :=
  (selectPath [e] p).head?

/-- `element.findtext(path)` with default `None`: `none` when no element
matches; the empty string when the element matched but has no text. -/
def findtext (e : Elem) (p : List String) : Option String :=
  (findPath e p).map (fun el => el.text.getD "")

/-! ### Constants from the source (src/wsdd.py, constants section) -/

def WSA_URI : String := "http://schemas.xmlsoap.org/ws/2004/08/addressing"
def WSD_URI : String := "http://schemas.xmlsoap.org/ws/2005/04/discovery"
def WSDP_URI : String := "http://schemas.xmlsoap.org/ws/2006/02/devprof"

/-- Namespace prefix map declared on every envelope root. -/
def namespaces : List (String × String) :=
  [("soap", "http://www.w3.org/2003/05/soap-envelope"),
   ("wsa", WSA_URI),
   ("wsd", WSD_URI),
   ("wsx", "http://schemas.xmlsoap.org/ws/2004/09/mex"),
   ("wsdp", WSDP_URI),
   ("pnpx", "http://schemas.microsoft.com/windows/pnpx/2005/10"),
   ("pub", "http://schemas.microsoft.com/windows/pub/2005/07")]

def WSD_MAX_KNOWN_MESSAGES : Nat := 10

def WSD_PROBE : String := WSD_URI ++ "/Probe"
def WSD_PROBE_MATCH : String := WSD_URI ++ "/ProbeMatches"
def WSD_RESOLVE : String := WSD_URI ++ "/Resolve"
def WSD_RESOLVE_MATCH : String := WSD_URI ++ "/ResolveMatches"
def WSD_HELLO : String := WSD_URI ++ "/Hello"
def WSD_BYE : String := WSD_URI ++ "/Bye"
def WSD_GET : String := "http://schemas.xmlsoap.org/ws/2004/09/transfer/Get"
def WSD_GET_RESPONSE : String := "http://schemas.xmlsoap.org/ws/2004/09/transfer/GetResponse"

def WSD_TYPE_DEVICE : String := "wsdp:Device"
def PUB_COMPUTER : String := "pub:Computer"
def WSD_TYPE_DEVICE_COMPUTER : String := WSD_TYPE_DEVICE ++ " " ++ PUB_COMPUTER

def WSA_ANON : String := WSA_URI ++ "/role/anonymous"
def WSA_DISCOVERY : String := "urn:schemas-xmlsoap-org:ws:2005:04:discovery"

def MIME_TYPE_SOAP_XML : String := "application/soap+xml"

def MULTICAST_UDP_REPEAT : Nat := 4
def UNICAST_UDP_REPEAT : Nat := 2
def UDP_MIN_DELAY : Nat := 50
def UDP_MAX_DELAY : Nat := 250
def UDP_UPPER_DELAY : Nat := 500

/-! ### Response-element builders (WSDMessageHandler shortcut methods) -/

/-- `add_endpoint_reference`: the element appended to `parent`; `ownUrn` is
`args.uuid.urn`, used when `endpoint` is `None`. -/
def endpoint_reference_elem (ownUrn : String) (endpoint : Option String) : Elem :=
  .mk "wsa:EndpointReference" [] none
    [.mk "wsa:Address" [] (some (endpoint.getD ownUrn)) []]

/-- `add_metadata_version`: the appended element. -/
def metadata_version_elem : Elem :=
  .mk "wsd:MetadataVersion" [] (some "1") []

/-- `add_types`: the appended element. -/
def types_elem : Elem :=
  .mk "wsd:Types" [] (some WSD_TYPE_DEVICE_COMPUTER) []

/-! ### WSDHost.handle_probe (src/wsdd.py lines 785-813) -/

/-- The `wsd:ProbeMatches` body the host replies with. -/
def probe_matches_body (ownUrn : String) : Elem :=
  .mk "wsd:ProbeMatches" [] none
    [.mk "wsd:ProbeMatch" [] none
      [endpoint_reference_elem ownUrn none, types_elem, metadata_version_elem]]

/-- `WSDHost.handle_probe`: given the `soap:Body` of the request, return the
reply body and action, or `none` (drop). Note the source tests the found
Scopes element with Python truthiness (`if scopes:`), which is false for an
element without children even when the element is present. -/
def handle_probe (ownUrn : String) (body : Elem) : Option (Elem × String) :=
  match body.findChild "wsd:Probe" with
  | none => none
  | some probe =>
    let scopes := probe.findChild "wsd:Scopes"
    if (match scopes with | some s => s.truthy | none => false) then none
    else
      match probe.findChild "wsd:Types" with
      | none => none
      | some te =>
        if !(te.text == some WSD_TYPE_DEVICE) then none
        else some (probe_matches_body ownUrn, WSD_PROBE_MATCH)

/-! ### WSDUDPMessageHandler.schedule_datagram (src/wsdd.py lines 464-479) -/

/-- The sequence of sleep delays (milliseconds) performed by the retransmit
loop: one entry per repeat iteration; the delay doubles after each send,
clamped at `UDP_UPPER_DELAY`. -/
def scheduleDelays : Nat → Nat → List Nat
  | 0, _ => []
  | n + 1, d => d :: scheduleDelays n (min (d * 2) UDP_UPPER_DELAY)

/-- `schedule_datagram` observable behaviour: total number of send calls and
the list of inter-send delays, given whether the destination equals the
endpoint's multicast address and the initial random delay `d0` drawn by
`random.randint(UDP_MIN_DELAY, UDP_MAX_DELAY)`. The initial send happens
before the loop; each loop iteration sleeps then sends. -/
def schedule_datagram (isMulticast : Bool) (d0 : Nat) : Nat × List Nat :=
  let msg_count := if isMulticast then MULTICAST_UDP_REPEAT else UNICAST_UDP_REPEAT
  let ds := scheduleDelays (msg_count - 1) d0
  (1 + ds.length, ds)

/-! ### Duplicate suppression (WSDMessageHandler.is_duplicated_msg, lines 412-423)

`known_messages = collections.deque([], WSD_MAX_KNOWN_MESSAGES)` is a class
attribute of `WSDMessageHandler`, so one deque is shared by every handler in
the process. It is modelled as a list, oldest entry first. Message ids are
element texts, hence `Option String`. -/

/-- `deque.append` with `maxlen`: append on the right, discard from the left
while over capacity. -/
def dequeAppend (q : List (Option String)) (x : Option String) : List (Option String) :=
  let q2 := q ++ [x]
  if q2.length ≤ WSD_MAX_KNOWN_MESSAGES then q2 else q2.drop (q2.length - WSD_MAX_KNOWN_MESSAGES)

/-- `is_duplicated_msg`: returns whether the id was known, and the deque
afterwards (the id is appended when it was not known). -/
def is_duplicated_msg (known : List (Option String)) (msg_id : Option String) :
    Bool × List (Option String) :=
  if known.contains msg_id then (true, known)
  else (false, dequeAppend known msg_id)

/-! ### WSDMessageHandler.build_message_tree (lines 317-352) -/

/-- `build_message_tree`. `extra` models the role's `add_header_elements`
override (the elements it appends to the header, given the action string);
`newMsgId` models the `uuid.uuid1().urn` generated for this message. Returns
the envelope root and the generated message id. Mirrors the source: To,
Action, MessageID; a RelatesTo iff the request header is truthy and holds a
MessageID element; then role extras; then the body; namespace declarations
as root attributes. -/
def bmt_relates (request_header : Option Elem) : List Elem :=
  match request_header with
  | none => []
  | some h =>
    if h.truthy then
      match h.findChild "wsa:MessageID" with
      | some req => [.mk "wsa:RelatesTo" [] req.text []]
      | none => []
    else []

def build_message_tree (extra : String → List Elem) (newMsgId : String)
    (to_addr action_str : String) (request_header : Option Elem) (body : Option Elem) :
    Elem × String :=
  let hdrBase : List Elem :=
    [.mk "wsa:To" [] (some to_addr) [],
     .mk "wsa:Action" [] (some action_str) [],
     .mk "wsa:MessageID" [] (some newMsgId) []]
  let header : Elem :=
    .mk "soap:Header" [] none (hdrBase ++ bmt_relates request_header ++ extra action_str)
  let body_root : Elem :=
    .mk "soap:Body" [] none (match body with | some b => [b] | none => [])
  let nsAttrs : List (String × String) :=
    namespaces.map (fun p => ("xmlns:" ++ p.1, p.2))
  (.mk "soap:Envelope" nsAttrs none [header, body_root], newMsgId)

/-! ### WSDMessageHandler.handle_message (lines 357-410)

The raw datagram bytes and `ETfromString` are external; the embedding takes
the parse outcome directly (`none` models `ParseError`). `mch` is whether
the message came over a `MulticastHandler` (UDP) rather than HTTP. Handlers
may raise (`Except.error`), as Python handlers can; an error propagates out
of `handle_message` uncaught, exactly as in the source. The result carries
the optional response envelope and the deque after the call. -/
def handle_message
    (handlers : String → Option (Elem → Elem → Except String (Option (Elem × String))))
    (extra : String → List Elem) (newMsgId : String)
    (known : List (Option String)) (parsed : Option Elem) (mch : Bool) :
    Except String (Option Elem × List (Option String)) :=
  match parsed with
  | none => .ok (none, known)
  | some tree =>
    match tree.findChild "soap:Header" with
    | none => .ok (none, known)
    | some header =>
      match header.findChild "wsa:MessageID" with
      | none => .ok (none, known)
      | some msg_id_tag =>
        let msg_id := msg_id_tag.text
        -- `if mch and self.is_duplicated_msg(msg_id)`: short-circuit, so the
        -- deque is consulted (and updated) only for UDP-originated messages
        let known1 := if mch then (is_duplicated_msg known msg_id).2 else known
        if mch && (is_duplicated_msg known msg_id).1 then .ok (none, known1)
        else
          match header.findChild "wsa:Action" with
          | none => .ok (none, known1)
          | some action_tag =>
            match tree.findChild "soap:Body" with
            | none => .ok (none, known1)
            | some body =>
              match action_tag.text with
              | none => .ok (none, known1)
              | some action =>
                match handlers action with
                | none => .ok (none, known1)
                | some handler =>
                  match handler header body with
                  | .error s => .error s
                  | .ok none => .ok (none, known1)
                  | .ok (some (response, response_type)) =>
                    .ok (some (build_message_tree extra newMsgId WSA_ANON response_type
                                (some header) (some response)).1, known1)

/-- A test envelope: a `soap:Header` with the given children and, optionally,
an empty `soap:Body`. -/
def mkEnvelope (hdrChildren : List Elem) (withBody : Bool) : Elem :=
  .mk "soap:Envelope" [] none
    ([.mk "soap:Header" [] none hdrChildren] ++
     (if withBody then [Elem.mk "soap:Body" [] none []] else []))

def midElem (x : Option String) : Elem := .mk "wsa:MessageID" [] x []

def actionElem (a : Option String) : Elem := .mk "wsa:Action" [] a []

/-! ### WSDClient.extract_endpoint_metadata and handle_probe_match (lines 637-680) -/

/-- `extract_endpoint_metadata`: findtext of
`<elemPath>/wsa:EndpointReference/wsa:Address` and `<elemPath>/wsd:XAddrs`. -/
def extract_endpoint_metadata (body : Elem) (elemPath : List String) :
    Option String × Option String :=
  (findtext body (elemPath ++ ["wsa:EndpointReference", "wsa:Address"]),
   findtext body (elemPath ++ ["wsd:XAddrs"]))

/-- The observable effect of a client handler on a single message. -/
inductive ClientAction where
  | drop
  | sendResolve (endpoint : Option String)
  | metadataFetch (endpoint : Option String) (xaddr : String)
deriving DecidableEq

/-- `header.findtext(tag, None, namespaces)`: `none` when the child is
missing, otherwise the child's text (empty string when the text is None). -/
def findtextChild (header : Elem) (t : String) : Option String :=
  (header.findChild t).map (fun e => e.text.getD "")

/-- `WSDClient.handle_probe_match`: drop unless the RelatesTo value is a key
of the `probes` map (modelled by its key list); then resolve when XAddrs is
missing or empty, else fetch metadata from the stripped XAddrs. -/
def handle_probe_match (probes : List String) (header body : Elem) : ClientAction :=
  let rel_msg := findtextChild header "wsa:RelatesTo"
  if !(match rel_msg with | some r => probes.contains r | none => false) then .drop
  else
    let (endpoint, xaddrs) :=
      extract_endpoint_metadata body ["wsd:ProbeMatches", "wsd:ProbeMatch"]
    -- `if not xaddrs`: falsy for both None and the empty string
    if (xaddrs.getD "").isEmpty then .sendResolve endpoint
    else .metadataFetch endpoint (xaddrs.getD "").trim

/-! ### Python uuid.UUID (standard library, external collaborator)

`WSDClient.handle_bye` calls `uuid.UUID(endpoint)` with no exception guard.
The constructor removes every occurrence of `urn:` and of `uuid:`, strips
curly braces at the ends, removes all hyphens, and then requires exactly 32
hexadecimal digits, raising `ValueError` otherwise (and `TypeError` when
given `None`). The canonical form is the lowercase 8-4-4-4-12 grouping. -/

def hexVal (c : Char) : Option Nat :=
  let n := c.toNat
  if 48 ≤ n ∧ n ≤ 57 then some (n - 48)
  else if 97 ≤ n ∧ n ≤ 102 then some (n - 87)
  else if 65 ≤ n ∧ n ≤ 70 then some (n - 55)
  else none

/-- Remove every (left-to-right, non-overlapping) occurrence of `needle`
from `s`; fuel-driven model of Python `str.replace(needle, "")`. -/
def removeSub (needle : List Char) : Nat → List Char → List Char
  | 0, s => s
  | fuel + 1, s =>
    if needle ≠ [] ∧ needle.isPrefixOf s then
      removeSub needle fuel (s.drop needle.length)
    else
      match s with
      | [] => []
      | c :: rest => c :: removeSub needle fuel rest

def lbrace : Char := Char.ofNat 123
def rbrace : Char := Char.ofNat 125

def hyphen : Char := Char.ofNat 45

/-- Model of the Python standard-library `uuid.UUID(hex)` constructor
composed with `str(...)`: `none` models a raised `ValueError`. -/
def pyUUID (s : String) : Option String :=
  let cs := removeSub "urn:".data s.data.length s.data
  let cs := removeSub "uuid:".data cs.length cs
  let cs := (cs.dropWhile (· == lbrace)).reverse.dropWhile (· == rbrace) |>.reverse
  let cs := cs.filter (fun c => c ≠ hyphen)
  if cs.length = 32 ∧ (cs.all (fun c => (hexVal c).isSome)) then
    let l := cs.map Char.toLower
    some (String.mk (l.take 8) ++ "-" ++ String.mk ((l.drop 8).take 4) ++ "-" ++
          String.mk ((l.drop 12).take 4) ++ "-" ++ String.mk ((l.drop 16).take 4) ++ "-" ++
          String.mk (l.drop 20))
  else none

/-! ### WSDClient.handle_bye (lines 630-635) -/

/-- `WSDClient.handle_bye`: reads the Bye endpoint address, feeds it to
`uuid.UUID` with no guard (so a missing address raises `TypeError` and an
unparseable one raises `ValueError`, modelled by `Except.error`), and on
success deletes the device from the registry (modelled by its key list).
The handler never produces a reply. -/
def handle_bye (registry : List String) (body : Elem) :
    Except String (List String × Option (Elem × String)) :=
  let (endpoint, _) := extract_endpoint_metadata body ["wsd:Bye"]
  match endpoint with
  | none => .error "TypeError"
  | some e =>
    match pyUUID e with
    | none => .error "ValueError"
    | some device_uuid => .ok (registry.filter (fun k => k ≠ device_uuid), none)

/-- The client's handler table restricted to the Bye action, as registered in
`WSDClient.__init__`; the registry update is not observed at this level. -/
def clientByeHandlers (registry : List String) :
    String → Option (Elem → Elem → Except String (Option (Elem × String))) :=
  fun a =>
    if a = WSD_BYE then
      some (fun _ body => (handle_bye registry body).map Prod.snd)
    else none

/-! ### WSDHost.add_header_elements (lines 839-845)

`type(self).message_number` is a `WSDHost` class attribute read and then
incremented on every message the host role builds; `wsd_instance_id` is set
once at import time (`int(time.time())`). -/

/-- One call: the `wsd:AppSequence` element appended to the header, and the
counter afterwards. `sequenceUrn` models the fresh `uuid.uuid1().urn`. -/
def host_add_header_elements (instId : Nat) (sequenceUrn : String) (m : Nat) :
    Elem × Nat :=
  (.mk "wsd:AppSequence"
     [("InstanceId", toString instId),
      ("SequenceId", sequenceUrn),
      ("MessageNumber", toString m)] none [],
   m + 1)

/-- A run of successive host-role message builds, one per sequence urn,
starting from counter value `m`; each result is paired with the counter
value it consumed. -/
def appSeqRun (instId : Nat) : List String → Nat → List (Elem × Nat)
  | [], _ => []
  | u :: us, m => (host_add_header_elements instId u m |>.1, m) :: appSeqRun instId us (m + 1)

/-! ### NetworkAddressMonitor.is_address_handled (lines 1111-1139) -/

inductive Family where
  | inet
  | inet6
deriving DecidableEq

/-- `is_address_handled`. `addr` is the raw address as a byte list;
`addrStr` stands for the external `socket.inet_ntop(addr_family, addr)`;
`allowlist` models `args.interface` (empty list = option unset, which is
falsy in Python). Guards appear in source order. -/
def is_address_handled (active ipv4only ipv6only : Bool) (allowlist : List String)
    (addr : List Nat) (family : Family) (ifaceName addrStr : String) : Bool :=
  if !active then false
  else if ipv4only && !(family == Family.inet) then false
  else if ipv6only && !(family == Family.inet6) then false
  else if family == Family.inet && addr.headD 0 == 127 then false
  else if family == Family.inet6 && !(addr.take 2 == [254, 128]) then false
  else if !allowlist.isEmpty && !(allowlist.contains ifaceName)
          && !(allowlist.contains addrStr) then false
  else true

/-! ### WSDHttpRequestHandler.do_POST (lines 930-948) -/

/-- One HTTP response written to the connection. -/
inductive HttpOut where
  | errorResp (code : Nat)
  | okResp (body : Elem)

/-- `do_POST`. Returns the list of responses written, in order, and whether
the handler raised (`int(None)` when Content-Length is missing). The source
has no `return` after either `send_error`, so execution falls through: a
wrong path or bad Content-Type emits its error response and the body is
still read and handed to the engine (`engineResp` models the engine's
result on it). The Content-Type test is `ct.startswith(MIME_TYPE_SOAP_XML)`,
modelled on the character list. -/
def do_POST (ownUuid path : String) (contentType : Option String)
    (contentLength : Option Nat) (engineResp : Option Elem) : List HttpOut × Bool :=
  let outs1 : List HttpOut :=
    if path ≠ "/" ++ ownUuid then [.errorResp 404] else []
  let ctOk : Bool :=
    match contentType with
    | none => false
    | some ct => MIME_TYPE_SOAP_XML.data.isPrefixOf ct.data
  let outs2 : List HttpOut := if !ctOk then [.errorResp 400] else []
  match contentLength with
  | none => (outs1 ++ outs2, true)
  | some _ =>
    let outs3 : List HttpOut :=
      match engineResp with
      | some r => [.okResp r]
      | none => [.errorResp 400]
    (outs1 ++ outs2 ++ outs3, false)

/-! ## Theorems -/

/-- Appending to the bounded deque never exceeds its capacity. -/
theorem dequeAppend_length_le (q : List (Option String)) (x : Option String)
    (h : q.length ≤ WSD_MAX_KNOWN_MESSAGES) :
    (dequeAppend q x).length ≤ WSD_MAX_KNOWN_MESSAGES := by
  simp only [dequeAppend]
  split
  · assumption
  · simp only [List.length_drop]
    omega

/-- The id just appended to the bounded deque is present in it. -/
theorem mem_dequeAppend_self (q : List (Option String)) (x : Option String) :
    x ∈ dequeAppend q x := by
  simp only [dequeAppend]
  split
  · simp
  · have hk : (q ++ [x]).length - WSD_MAX_KNOWN_MESSAGES ≤ q.length := by
      have hq : (q ++ [x]).length = q.length + 1 := by simp
      unfold WSD_MAX_KNOWN_MESSAGES
      omega
    rw [List.drop_append_of_le_length hk]
    simp

/-- C1: the claim says a Probe whose body contains a `wsd:Scopes` element is
dropped with no reply. The source tests the element with Python truthiness
(`if scopes:`), which is false for a present element without child elements,
so a Probe carrying `<wsd:Scopes>urn:example:scope</wsd:Scopes>` (text only)
together with `Types = wsdp:Device` is answered with a full ProbeMatches
reply instead of being dropped: evaluation of `handle_probe` at that input. -/
theorem wsdd_C1_scoped_probe_answered :
    handle_probe "urn:uuid:11111111-2222-3333-4444-555555555555"
      (.mk "soap:Body" [] none
        [.mk "wsd:Probe" [] none
          [.mk "wsd:Scopes" [] (some "urn:example:scope") [],
           .mk "wsd:Types" [] (some "wsdp:Device") []]])
    = some (probe_matches_body "urn:uuid:11111111-2222-3333-4444-555555555555",
            WSD_PROBE_MATCH) := rfl

/-- C2: a scheduled datagram is sent exactly `MULTICAST_UDP_REPEAT = 4`
times to the multicast destination and `UNICAST_UDP_REPEAT = 2` times
otherwise (the initial send counting as one); with the initial delay drawn
from `[UDP_MIN_DELAY, UDP_MAX_DELAY]`, the delays are the initial one
followed by its successive doublings clamped at `UDP_UPPER_DELAY`, all lie
in `[50, 500]` ms, and the delay sequence is non-decreasing. -/
theorem wsdd_C2_retransmit_schedule (d0 : Nat)
    (h1 : UDP_MIN_DELAY ≤ d0) (h2 : d0 ≤ UDP_MAX_DELAY) :
    (schedule_datagram true d0).1 = MULTICAST_UDP_REPEAT ∧
    (schedule_datagram false d0).1 = UNICAST_UDP_REPEAT ∧
    (schedule_datagram true d0).2 =
      [d0, min (d0 * 2) UDP_UPPER_DELAY,
       min (min (d0 * 2) UDP_UPPER_DELAY * 2) UDP_UPPER_DELAY] ∧
    (schedule_datagram false d0).2 = [d0] ∧
    (∀ d ∈ (schedule_datagram true d0).2, UDP_MIN_DELAY ≤ d ∧ d ≤ UDP_UPPER_DELAY) ∧
    List.Chain' (fun a b => a ≤ b) (schedule_datagram true d0).2 := by
  simp only [UDP_MIN_DELAY, UDP_MAX_DELAY] at h1 h2
  refine ⟨rfl, rfl, rfl, rfl, ?_, ?_⟩
  · simp only [schedule_datagram, scheduleDelays, MULTICAST_UDP_REPEAT, UDP_UPPER_DELAY,
      UDP_MIN_DELAY, List.mem_cons, List.not_mem_nil, or_false, forall_eq_or_imp, forall_eq]
    omega
  · simp only [schedule_datagram, scheduleDelays, MULTICAST_UDP_REPEAT, UDP_UPPER_DELAY,
      List.chain'_cons, List.chain'_singleton, and_true]
    omega

/-- Witness for C2 at the concrete initial delay 100 ms. -/
theorem wsdd_C2_retransmit_schedule_witness :
    (schedule_datagram true 100).1 = MULTICAST_UDP_REPEAT ∧
    (schedule_datagram false 100).1 = UNICAST_UDP_REPEAT :=
  ⟨(wsdd_C2_retransmit_schedule 100 (by decide) (by decide)).1,
   (wsdd_C2_retransmit_schedule 100 (by decide) (by decide)).2.1⟩

/-- C4: the claim says each POST receives exactly one outcome, with 404 for
a wrong path. `do_POST` has no `return` after `send_error`, so a request
with a wrong path but valid Content-Type is answered with 404 and is then
still handed to the engine, producing a second, 200 response on the same
request: evaluation at that input shows both responses being written. -/
theorem wsdd_C4_fallthrough :
    do_POST "11111111-2222-3333-4444-555555555555" "/wrong-path"
      (some "application/soap+xml") (some 100) (some (.mk "soap:Envelope" [] none []))
    = ([.errorResp 404, .okResp (.mk "soap:Envelope" [] none [])], false) := rfl

/-- C9: the claim says a Bye whose EndpointReference address is not a
parseable UUID urn is dropped without an error propagating out of the
handler. `handle_bye` calls `uuid.UUID(endpoint)` unguarded, so the
`ValueError` raised on a non-UUID address propagates out of
`handle_message`: evaluation at a concrete Bye carrying the address
`not-a-uuid`. -/
theorem wsdd_C9_bye_raises :
    handle_message (clientByeHandlers ["22222222-2222-3333-4444-555555555555"])
      (fun _ => []) "urn:uuid:reply-id" []
      (some (.mk "soap:Envelope" [] none
        [.mk "soap:Header" [] none
          [midElem (some "urn:uuid:aaaa1111-2222-3333-4444-555555555555"),
           actionElem (some WSD_BYE)],
         .mk "soap:Body" [] none
          [.mk "wsd:Bye" [] none
            [.mk "wsa:EndpointReference" [] none
              [.mk "wsa:Address" [] (some "not-a-uuid") []]]]]))
      true
    = Except.error "ValueError" := rfl

/-- C3: the process-wide recent-MessageID deque holds at most 10 entries,
evicting the oldest when an 11th distinct id is inserted; a UDP-originated
message whose id is in the deque is dropped before dispatch with the deque
unchanged; an id not in the deque is appended (and dispatch proceeds, shown
by the handler being invoked on the message); HTTP-originated messages
(`mch = false`) never touch the deque. -/
theorem wsdd_C3_dedup (known : List (Option String)) (x : Option String)
    (handlers : String → Option (Elem → Elem → Except String (Option (Elem × String))))
    (extra : String → List Elem) (nm : String)
    (hlen : known.length ≤ WSD_MAX_KNOWN_MESSAGES) :
    ((is_duplicated_msg known x).2.length ≤ WSD_MAX_KNOWN_MESSAGES) ∧
    (known.length = WSD_MAX_KNOWN_MESSAGES → known.contains x = false →
       (is_duplicated_msg known x).2 = known.drop 1 ++ [x]) ∧
    (∀ (act : Option String) (withBody : Bool), known.contains x = true →
       handle_message handlers extra nm known
         (some (mkEnvelope [midElem x, actionElem act] withBody)) true = .ok (none, known)) ∧
    (known.contains x = false →
       is_duplicated_msg known x = (false, dequeAppend known x)) ∧
    (∀ parsed r k2, handle_message handlers extra nm known parsed false = .ok (r, k2) →
       k2 = known) ∧
    (∀ (a : String) (f : Elem → Elem → Except String (Option (Elem × String))),
       known.contains x = false →
       handle_message (fun s => if s = a then some f else none) extra nm known
         (some (mkEnvelope [midElem x, actionElem (some a)] true)) true =
       (match f (Elem.mk "soap:Header" [] none [midElem x, actionElem (some a)])
               (Elem.mk "soap:Body" [] none []) with
        | .error s => .error s
        | .ok none => .ok (none, dequeAppend known x)
        | .ok (some (resp, rt)) =>
            .ok (some (build_message_tree extra nm WSA_ANON rt
                  (some (Elem.mk "soap:Header" [] none [midElem x, actionElem (some a)]))
                  (some resp)).1, dequeAppend known x))) := by
  refine ⟨?_, ?_, ?_, ?_, ?_, ?_⟩
  · by_cases hm : x ∈ known
    · simp [is_duplicated_msg, hm, hlen]
    · have hle := dequeAppend_length_le known x hlen
      simp [is_duplicated_msg, hm, hle]
  · intro h10 hc
    replace hc : x ∉ known := by simpa using hc
    have hd : is_duplicated_msg known x = (false, dequeAppend known x) := by
      simp [is_duplicated_msg, hc]
    rw [hd]
    simp only [dequeAppend]
    rw [if_neg (by simp [h10, WSD_MAX_KNOWN_MESSAGES])]
    rw [List.drop_append_of_le_length (by simp [h10, WSD_MAX_KNOWN_MESSAGES])]
    simp [h10, WSD_MAX_KNOWN_MESSAGES]
  · intro act withBody hc
    replace hc : x ∈ known := by simpa using hc
    simp [handle_message, mkEnvelope, Elem.findChild, Elem.children, Elem.tag, Elem.text,
      midElem, actionElem, is_duplicated_msg, hc]
  · intro hc
    replace hc : x ∉ known := by simpa using hc
    simp [is_duplicated_msg, hc]
  · intro parsed r k2 h
    unfold handle_message at h
    repeat' split at h
    all_goals simp_all
  · intro a f hc
    replace hc : x ∉ known := by simpa using hc
    simp [handle_message, mkEnvelope, Elem.findChild, Elem.children, Elem.tag,
      Elem.text, midElem, actionElem, is_duplicated_msg, hc, List.find?]

/-- Witness for C3: an unknown MessageID is appended to the deque. -/
theorem wsdd_C3_dedup_witness :
    is_duplicated_msg [some "urn:uuid:a"] (some "urn:uuid:b")
      = (false, dequeAppend [some "urn:uuid:a"] (some "urn:uuid:b")) :=
  (wsdd_C3_dedup [some "urn:uuid:a"] (some "urn:uuid:b") (fun _ => none) (fun _ => [])
    "urn:uuid:n" (by decide)).2.2.2.1 (by decide)

/-- C10: a UDP-originated message with a Header and MessageID but no Action
element is rejected only after `is_duplicated_msg` has appended its id to the
process-wide deque; a later well-formed message bearing the same id is then
dropped as a duplicate instead of being dispatched. -/
theorem wsdd_C10_header_only_poisons_dedup (known : List (Option String)) (x : String)
    (handlers : String → Option (Elem → Elem → Except String (Option (Elem × String))))
    (extra : String → List Elem) (nm nm2 : String)
    (h : known.contains (some x) = false) :
    handle_message handlers extra nm known
      (some (mkEnvelope [midElem (some x)] true)) true
      = .ok (none, dequeAppend known (some x)) ∧
    (∀ (act : Option String) (withBody : Bool),
      handle_message handlers extra nm2 (dequeAppend known (some x))
        (some (mkEnvelope [midElem (some x), actionElem act] withBody)) true
        = .ok (none, dequeAppend known (some x))) := by
  replace h : (some x) ∉ known := by simpa using h
  constructor
  · simp [handle_message, mkEnvelope, Elem.findChild, Elem.children, Elem.tag, Elem.text,
      midElem, is_duplicated_msg, h, List.find?]
  · intro act withBody
    have hmem : (some x) ∈ dequeAppend known (some x) := mem_dequeAppend_self known (some x)
    simp [handle_message, mkEnvelope, Elem.findChild, Elem.children, Elem.tag, Elem.text,
      midElem, actionElem, is_duplicated_msg, hmem]

/-- Witness for C10: on an empty deque, the Action-less message is rejected
with its id appended. -/
theorem wsdd_C10_header_only_poisons_dedup_witness :
    handle_message (fun _ => none) (fun _ => []) "urn:uuid:n" []
      (some (mkEnvelope [midElem (some "urn:uuid:z")] true)) true
      = .ok (none, dequeAppend [] (some "urn:uuid:z")) :=
  (wsdd_C10_header_only_poisons_dedup [] "urn:uuid:z" (fun _ => none) (fun _ => [])
    "urn:uuid:n" "urn:uuid:m" (by decide)).1

/-- Index lookup in `List.range'`. -/
theorem range'_getD (n s i : Nat) (h : i < n) : (List.range' s n).getD i 0 = s + i := by
  induction n generalizing s i with
  | zero => omega
  | succ n ih =>
    cases i with
    | zero => simp [List.range']
    | succ i =>
      have hi : i < n := by omega
      simp only [List.range', List.getD_cons_succ]
      rw [ih (s + 1) i hi]
      omega

/-- The sequence of counter values consumed by a run of host message builds. -/
theorem appSeqRun_map_snd (instId : Nat) :
    ∀ (us : List String) (m : Nat),
      (appSeqRun instId us m).map Prod.snd = List.range' m us.length := by
  intro us
  induction us with
  | nil => intro m; simp [appSeqRun]
  | cons u us ih =>
    intro m
    simp [appSeqRun, List.range', ih (m + 1)]

/-- C5: every host-role message carries a `wsd:AppSequence` whose InstanceId
is the fixed process value and whose MessageNumber is the current counter;
the counters consumed by successive builds are `m0, m0+1, ...`, increasing
by exactly 1 per message, hence strictly increasing across the run. -/
theorem wsdd_C5_appsequence (instId : Nat) (urns : List String) (m0 : Nat) :
    ((appSeqRun instId urns m0).map Prod.snd = List.range' m0 urns.length) ∧
    (∀ p ∈ appSeqRun instId urns m0,
       p.1.attr "InstanceId" = some (toString instId) ∧
       p.1.attr "MessageNumber" = some (toString p.2)) ∧
    (∀ i j, i < j → j < urns.length →
       ((appSeqRun instId urns m0).map Prod.snd).getD i 0 <
       ((appSeqRun instId urns m0).map Prod.snd).getD j 0) := by
  refine ⟨appSeqRun_map_snd instId urns m0, ?_, ?_⟩
  · have hattr : ∀ (us : List String) (m : Nat) (p : Elem × Nat),
        p ∈ appSeqRun instId us m →
        p.1.attr "InstanceId" = some (toString instId) ∧
        p.1.attr "MessageNumber" = some (toString p.2) := by
      intro us
      induction us with
      | nil => intro m p hp; simp [appSeqRun] at hp
      | cons u us ih =>
        intro m p hp
        simp only [appSeqRun, List.mem_cons] at hp
        rcases hp with h | h
        · subst h
          constructor <;>
            simp [host_add_header_elements, Elem.attr, Elem.attrs, List.find?]
        · exact ih (m + 1) p h
    exact hattr urns m0
  · intro i j hij hj
    rw [appSeqRun_map_snd instId urns m0]
    rw [range'_getD _ _ _ (lt_trans hij hj), range'_getD _ _ _ hj]
    omega

/-- Witness for C5: in a two-message run the first counter is below the
second. -/
theorem wsdd_C5_appsequence_witness :
    ((appSeqRun 7 ["urn:uuid:s1", "urn:uuid:s2"] 3).map Prod.snd).getD 0 0 <
    ((appSeqRun 7 ["urn:uuid:s1", "urn:uuid:s2"] 3).map Prod.snd).getD 1 0 :=
  (wsdd_C5_appsequence 7 ["urn:uuid:s1", "urn:uuid:s2"] 3).2.2 0 1 (by decide) (by decide)

/-- C6: a ProbeMatch whose RelatesTo is not a key of the client's probes map
(including a missing RelatesTo) is dropped with no metadata fetch and no
Resolve; conversely any non-drop effect requires RelatesTo to be a key. -/
theorem wsdd_C6_probe_match_gating (probes : List String) (header body : Elem) :
    ((∀ r, findtextChild header "wsa:RelatesTo" = some r → probes.contains r = false) →
       handle_probe_match probes header body = ClientAction.drop) ∧
    (handle_probe_match probes header body ≠ ClientAction.drop →
       ∃ r, findtextChild header "wsa:RelatesTo" = some r ∧ probes.contains r = true) := by
  constructor
  · intro hno
    unfold handle_probe_match
    cases hrel : findtextChild header "wsa:RelatesTo" with
    | none => simp
    | some r =>
      have hm : r ∉ probes := by simpa using hno r hrel
      simp [hm]
  · intro hne
    unfold handle_probe_match at hne
    cases hrel : findtextChild header "wsa:RelatesTo" with
    | none =>
      rw [hrel] at hne
      simp at hne
    | some r =>
      rw [hrel] at hne
      by_cases hc : r ∈ probes
      · exact ⟨r, rfl, by simpa using hc⟩
      · simp [hc] at hne

/-- Witness for C6: a ProbeMatch without any RelatesTo header is dropped. -/
theorem wsdd_C6_probe_match_gating_witness :
    handle_probe_match [] (.mk "soap:Header" [] none [])
      (.mk "soap:Body" [] none []) = ClientAction.drop :=
  (wsdd_C6_probe_match_gating [] (.mk "soap:Header" [] none [])
    (.mk "soap:Body" [] none [])).1 (fun _ h => Option.noConfusion h)

/-- C7: an address accepted by the filter satisfies every condition of the
claim: the family restrictions, the IPv4 non-loopback first byte, the IPv6
link-local first two bytes `fe 80`, and membership of the interface name or
presentation address in a configured non-empty allowlist. -/
theorem wsdd_C7_address_filter (active ipv4only ipv6only : Bool) (allowlist : List String)
    (addr : List Nat) (family : Family) (ifaceName addrStr : String)
    (h : is_address_handled active ipv4only ipv6only allowlist addr family
           ifaceName addrStr = true) :
    (ipv4only = true → family = Family.inet) ∧
    (ipv6only = true → family = Family.inet6) ∧
    (family = Family.inet → addr.headD 0 ≠ 127) ∧
    (family = Family.inet6 → addr.take 2 = [254, 128]) ∧
    (allowlist ≠ [] → ifaceName ∈ allowlist ∨ addrStr ∈ allowlist) := by
  unfold is_address_handled at h
  repeat' split at h
  any_goals simp at h
  rename_i h1 h2 h3 h4 h5 h6
  refine ⟨?_, ?_, ?_, ?_, ?_⟩
  · intro hp
    by_cases hf : family = Family.inet
    · exact hf
    · exact absurd (by simp [hp, hf]) h2
  · intro hp
    by_cases hf : family = Family.inet6
    · exact hf
    · exact absurd (by simp [hp, hf]) h3
  · intro hf hcontra
    apply h4
    cases addr <;> simp_all
  · intro hf
    by_cases ht : addr.take 2 = [254, 128]
    · exact ht
    · exact absurd (by simp [hf, ht]) h5
  · intro hne
    by_cases hi : ifaceName ∈ allowlist
    · exact Or.inl hi
    · by_cases ha : addrStr ∈ allowlist
      · exact Or.inr ha
      · exact absurd (by simp [List.isEmpty_iff, hne, hi, ha]) h6

/-- Witness for C7: a plain private IPv4 address with no allowlist passes
the filter, and the theorem's conclusions hold for it. -/
theorem wsdd_C7_address_filter_witness :
    (false = true → Family.inet = Family.inet) ∧
    (false = true → Family.inet = Family.inet6) ∧
    (Family.inet = Family.inet → [10, 0, 0, 1].headD 0 ≠ 127) ∧
    (Family.inet = Family.inet6 → [10, 0, 0, 1].take 2 = [254, 128]) ∧
    (([] : List String) ≠ [] → "eth0" ∈ ([] : List String) ∨ "10.0.0.1" ∈ ([] : List String)) :=
  wsdd_C7_address_filter true false false [] [10, 0, 0, 1] Family.inet "eth0" "10.0.0.1"
    (by decide)

/-- C8: for every message built by `build_message_tree`, looking the header
fields up again the way `handle_message` parses them (serialisation and
re-parsing are the external `ElementTree` round trip, which is the identity
on the tree) yields the given To and Action, the MessageID generated at
build time, and a RelatesTo equal to the request header's MessageID exactly
when a request header containing one was supplied — no RelatesTo otherwise.
The hypothesis states that the role's header extension does not itself emit
a `wsa:RelatesTo` (true of both roles in the source). -/
theorem wsdd_C8_build_roundtrip (extra : String → List Elem)
    (newMsgId to_addr action_str : String)
    (request_header : Option Elem) (body : Option Elem)
    (hextra : ∀ e ∈ extra action_str, e.tag ≠ "wsa:RelatesTo") :
    (build_message_tree extra newMsgId to_addr action_str request_header body).2
      = newMsgId ∧
    ∃ hdr,
      (build_message_tree extra newMsgId to_addr action_str request_header
          body).1.findChild "soap:Header" = some hdr ∧
      (hdr.findChild "wsa:To").map Elem.text = some (some to_addr) ∧
      (hdr.findChild "wsa:Action").map Elem.text = some (some action_str) ∧
      (hdr.findChild "wsa:MessageID").map Elem.text = some (some newMsgId) ∧
      (request_header = none → hdr.findChild "wsa:RelatesTo" = none) ∧
      (∀ rh, request_header = some rh → rh.findChild "wsa:MessageID" = none →
         hdr.findChild "wsa:RelatesTo" = none) ∧
      (∀ rh req, request_header = some rh → rh.findChild "wsa:MessageID" = some req →
         (hdr.findChild "wsa:RelatesTo").map Elem.text = some req.text) := by
  have hnone : (extra action_str).find? (fun c => c.tag == "wsa:RelatesTo") = none :=
    List.find?_eq_none.mpr (fun e he => by simpa using hextra e he)
  refine ⟨rfl, ?_⟩
  refine ⟨_, rfl, rfl, rfl, rfl, ?_, ?_, ?_⟩
  · intro hrh
    subst hrh
    show Elem.findChild _ "wsa:RelatesTo" = none
    simp only [Elem.findChild, Elem.children, bmt_relates, List.nil_append,
      List.cons_append, List.find?, Elem.tag]
    exact hnone
  · intro rh hrh hreq
    subst hrh
    show Elem.findChild _ "wsa:RelatesTo" = none
    have hrel : bmt_relates (some rh) = [] := by
      simp [bmt_relates, hreq]
    simp only [Elem.findChild, Elem.children, hrel, List.append_nil, List.nil_append,
      List.cons_append, List.find?, Elem.tag]
    exact hnone
  · intro rh req hrh hreq
    subst hrh
    show (Elem.findChild _ "wsa:RelatesTo").map Elem.text = some req.text
    have htruthy : rh.truthy = true := by
      unfold Elem.findChild at hreq
      cases hch : rh.children with
      | nil => rw [hch] at hreq; simp [List.find?] at hreq
      | cons c cs => simp [Elem.truthy, hch]
    have hrel : bmt_relates (some rh) = [Elem.mk "wsa:RelatesTo" [] req.text []] := by
      simp [bmt_relates, htruthy, hreq]
    simp only [Elem.findChild, Elem.children, hrel, List.nil_append,
      List.cons_append, List.find?, Elem.tag]
    rfl

/-- Witness for C8: building a reply to a concrete request header with
MessageID `urn:uuid:req` generates the message id passed in. -/
theorem wsdd_C8_build_roundtrip_witness :
    (build_message_tree (fun _ => []) "urn:uuid:new" WSA_ANON WSD_PROBE_MATCH
       (some (.mk "soap:Header" [] none
         [.mk "wsa:MessageID" [] (some "urn:uuid:req") []])) none).2 = "urn:uuid:new" :=
  (wsdd_C8_build_roundtrip (fun _ => []) "urn:uuid:new" WSA_ANON WSD_PROBE_MATCH
    (some (.mk "soap:Header" [] none
      [.mk "wsa:MessageID" [] (some "urn:uuid:req") []])) none
    (fun e he => absurd he (List.not_mem_nil e))).1

end Wsdd
